import Mathlib

/-!
Verification of the structured-completion pipeline (agents/base_agent.py,
requirements_agent.py, code_agent.py, test_agent.py, orchestrator.py).

Strings are modelled as `List Char`.  Python `json.loads` is modelled by a
fuel-based recursive-descent JSON parser (`loads`); `json.dumps(v, indent=2,
ensure_ascii=False)` by `dumps`.  Dictionaries are modelled as association
lists in insertion order, with Python's update-in-place-or-append semantics
(`assocSet`).  The chat client is modelled at two levels: the retry loop of
`OpenAICompatibleClient.chat` over an oracle of per-attempt outcomes, and an
abstract `ChatFn` (a whole conversation to either a completion text or a
raised exception) consumed by the agents.
-/

namespace Agentic

set_option maxRecDepth 100000

/-- Strings of the embedded program are lists of characters. -/
abbrev Str := List Char

/-- Python `str.strip()` whitespace set (ASCII fragment). -/
def pyIsSpace (c : Char) : Bool :=
  c = ' ' || c = '\t' || c = '\n' || c = '\r' || c = '\x0b' || c = '\x0c'

/-- Python `str.strip()`: drop leading and trailing whitespace. -/
def pyStrip (l : Str) : Str :=
  ((l.dropWhile pyIsSpace).reverse.dropWhile pyIsSpace).reverse

/-- JSON whitespace accepted between tokens by `json.loads`. -/
def jsonWs (c : Char) : Bool :=
  c = ' ' || c = '\t' || c = '\n' || c = '\r'

/-- Skip leading JSON whitespace. -/
def skipWs : Str → Str
  | [] => []
  | c :: cs => if jsonWs c then skipWs cs else c :: cs

/-- JSON values as produced by `json.loads`.  Numbers keep their source
lexeme (the distinction between int and float plays no role here). -/
inductive Json where
  | null
  | bool (bv : Bool)
  | num (raw : Str)
  | str (s : Str)
  | arr (xs : List Json)
  | obj (members : List (Str × Json))

/-- Lookup in an insertion-ordered association list (Python `dict` access). -/
def assocLookup {α : Type} (m : List (Str × α)) (k : Str) : Option α :=
  (m.find? (fun pr => pr.1 == k)).map (fun pr => pr.2)

/-- Python `d[k] = v`: overwrite in place when the key exists (keeping its
position), otherwise append at the end. -/
def assocSet {α : Type} (m : List (Str × α)) (k : Str) (v : α) : List (Str × α) :=
  if m.any (fun pr => pr.1 == k) then
    m.map (fun pr => if pr.1 == k then (k, v) else pr)
  else
    m ++ [(k, v)]

/-- Build an object from parsed members in order; a duplicate key overwrites
the earlier value in place, as in Python's dict construction. -/
def buildObj (ms : List (Str × Json)) : List (Str × Json) :=
  ms.foldl (fun acc kv => assocSet acc kv.1 kv.2) []

/-- Hex digit value, for \uXXXX escapes (code points compared numerically:
digits 48-57, lowercase 97-102, uppercase 65-70). -/
def hexVal (c : Char) : Option Nat :=
  let n := c.toNat
  if 57 < n then
    if 97 ≤ n && n ≤ 102 then some (n - 87)
    else if 65 ≤ n && n ≤ 70 then some (n - 55)
    else none
  else if 48 ≤ n then some (n - 48)
  else none

/-- Scan a JSON string body (the opening quote already consumed): returns the
decoded characters and the input after the closing quote.  Unescaped control
characters are rejected (json.loads strict mode); \uXXXX becomes the single
character with that code (surrogate-pair recombination is not modelled). -/
def parseStrBody : Str → Option (Str × Str)
  | [] => none
  | '"' :: rest => some ([], rest)
  | '\\' :: 'u' :: h1 :: h2 :: h3 :: h4 :: rest =>
    match hexVal h1, hexVal h2, hexVal h3, hexVal h4 with
    | some x1, some x2, some x3, some x4 =>
      (parseStrBody rest).map (fun pr =>
        (Char.ofNat (((x1 * 16 + x2) * 16 + x3) * 16 + x4) :: pr.1, pr.2))
    | _, _, _, _ => none
  | '\\' :: e :: rest =>
    match (if e = '"' then some '"'
           else if e = '\\' then some '\\'
           else if e = '/' then some '/'
           else if e = 'b' then some '\x08'
           else if e = 'f' then some '\x0c'
           else if e = 'n' then some '\n'
           else if e = 'r' then some '\r'
           else if e = 't' then some '\t'
           else none) with
    | some dec => (parseStrBody rest).map (fun pr => (dec :: pr.1, pr.2))
    | none => none
  | c :: rest =>
    if c.toNat < 32 then none
    else (parseStrBody rest).map (fun pr => (c :: pr.1, pr.2))

/-- Strip a literal keyword from the front of the input, as the json.loads
scanner does for its constants. -/
def stripLit (lit : Str) (l : Str) : Option Str :=
  if lit.isPrefixOf l then some (l.drop lit.length) else none

/-- The constants accepted by json.loads: true, false, null, and by default
also NaN and Infinity. -/
def parseConst (l : Str) : Option (Json × Str) :=
  match stripLit "true".toList l with
  | some r => some (Json.bool true, r)
  | none =>
  match stripLit "false".toList l with
  | some r => some (Json.bool false, r)
  | none =>
  match stripLit "null".toList l with
  | some r => some (Json.null, r)
  | none =>
  match stripLit "NaN".toList l with
  | some r => some (Json.num "NaN".toList, r)
  | none =>
  match stripLit "Infinity".toList l with
  | some r => some (Json.num "Infinity".toList, r)
  | none => none

/-- Digit run at the front of the input. -/
def digitSpan (l : Str) : Str × Str :=
  (l.takeWhile Char.isDigit, l.dropWhile Char.isDigit)

/-- Lex a JSON number after the optional leading minus sign was consumed:
int part (0 or nonzero-led digits), optional fraction, optional exponent.
Returns the lexeme (without the sign) and the rest. -/
def parseNumBody (l : Str) : Option (Str × Str) :=
  match digitSpan l with
  | ([], _) => none
  | (ds, rest) =>
    if ds.length > 1 && ds.headD ' ' = '0' then none
    else
      let (frac, rest1) :=
        match rest with
        | '.' :: r =>
          match digitSpan r with
          | ([], _) => ([], '.' :: r)
          | (fs, r2) => ('.' :: fs, r2)
        | _ => ([], rest)
      if frac = [] && (match rest with | '.' :: _ => true | _ => false) then none
      else
        match rest1 with
        | e :: r =>
          if e = 'e' || e = 'E' then
            let (sgn, r2) :=
              match r with
              | '+' :: r2 => (['+'], r2)
              | '-' :: r2 => (['-'], r2)
              | _ => ([], r)
            match digitSpan r2 with
            | ([], _) => none
            | (es, r3) => some (ds ++ frac ++ e :: sgn ++ es, r3)
          else some (ds ++ frac, rest1)
        | [] => some (ds ++ frac, rest1)

mutual

/-- Parse one JSON value (after optional whitespace), returning it and the
remaining input.  `json.loads` also accepts the constants NaN, Infinity and
-Infinity.  Fuel bounds the recursion depth; `loads` supplies enough fuel
that it can never run out on its input. -/
def parseVal : Nat → Str → Option (Json × Str)
  | 0, _ => none
  | Nat.succ fuel, l =>
    match skipWs l with
    | '{' :: r =>
      match skipWs r with
      | '}' :: r2 => some (Json.obj [], r2)
      | r2 => (parseMembers fuel r2).map (fun pr => (Json.obj (buildObj pr.1), pr.2))
    | '[' :: r =>
      match skipWs r with
      | ']' :: r2 => some (Json.arr [], r2)
      | r2 => (parseItems fuel r2).map (fun pr => (Json.arr pr.1, pr.2))
    | '"' :: r => (parseStrBody r).map (fun pr => (Json.str pr.1, pr.2))
    | '-' :: r =>
      match stripLit "Infinity".toList r with
      | some r2 => some (Json.num "-Infinity".toList, r2)
      | none => (parseNumBody r).map (fun pr => (Json.num ('-' :: pr.1), pr.2))
    | l2 =>
      match parseConst l2 with
      | some res => some res
      | none => (parseNumBody l2).map (fun pr => (Json.num pr.1, pr.2))

/-- Parse the comma-separated items of a non-empty array, up to and past the
closing bracket. -/
def parseItems : Nat → Str → Option (List Json × Str)
  | 0, _ => none
  | Nat.succ fuel, l =>
    match parseVal fuel l with
    | some (v, rest) =>
      match skipWs rest with
      | ',' :: r2 =>
        (parseItems fuel r2).map (fun pr => (v :: pr.1, pr.2))
      | ']' :: r2 => some ([v], r2)
      | _ => none
    | none => none

/-- Parse the comma-separated members of a non-empty object, up to and past
the closing brace. -/
def parseMembers : Nat → Str → Option (List (Str × Json) × Str)
  | 0, _ => none
  | Nat.succ fuel, l =>
    match skipWs l with
    | '"' :: r =>
      match parseStrBody r with
      | none => none
      | some (k, rest) =>
        match skipWs rest with
        | ':' :: r2 =>
          match parseVal fuel r2 with
          | none => none
          | some (v, rest2) =>
            match skipWs rest2 with
            | ',' :: r3 =>
              (parseMembers fuel r3).map (fun pr => ((k, v) :: pr.1, pr.2))
            | '}' :: r3 => some ([(k, v)], r3)
            | _ => none
        | _ => none
    | _ => none

end

/-- Python `json.loads`: parse one JSON value and require that only
whitespace remains. -/
def loads (l : Str) : Option Json :=
  match parseVal (2 * l.length + 2) l with
  | some (v, rest) => if (skipWs rest).isEmpty then some v else none
  | none => none

/-- Hex digit character for dumps escapes (0-9 then a-f). -/
def hexDigitChar (n : Nat) : Char :=
  Char.ofNat (if n < 10 then 48 + n else 87 + n)

/-- Escape one character the way `json.dumps(..., ensure_ascii=False)` does. -/
def escChar (c : Char) : Str :=
  if c = '"' then ['\\', '"']
  else if c = '\\' then ['\\', '\\']
  else if c = '\n' then ['\\', 'n']
  else if c = '\t' then ['\\', 't']
  else if c = '\r' then ['\\', 'r']
  else if c = '\x08' then ['\\', 'b']
  else if c = '\x0c' then ['\\', 'f']
  else if c.toNat < 32 then
    let n := c.toNat
    '\\' :: 'u' :: '0' :: '0' :: hexDigitChar (n / 16) :: [hexDigitChar (n % 16)]
  else [c]

/-- Serialize a string with surrounding quotes and escapes. -/
def quoteStr (s : Str) : Str :=
  '"' :: s.foldr (fun c acc => escChar c ++ acc) ['"']

/-- Indentation run. -/
def spaces (n : Nat) : Str := List.replicate n ' '

mutual

/-- Model of `json.dumps(v, indent=2, ensure_ascii=False)` at the given
current indentation width. -/
def dumpsVal : Nat → Json → Str
  | _, Json.null => "null".toList
  | _, Json.bool true => "true".toList
  | _, Json.bool false => "false".toList
  | _, Json.num raw => raw
  | _, Json.str s => quoteStr s
  | _, Json.arr [] => "[]".toList
  | ind, Json.arr (x :: xs) =>
    '[' :: '\n' :: dumpsItems (ind + 2) (x :: xs) ++ '\n' :: spaces ind ++ [']']
  | _, Json.obj [] => "\x7b\x7d".toList
  | ind, Json.obj (m :: ms) =>
    '\x7b' :: '\n' :: dumpsMembers (ind + 2) (m :: ms) ++ '\n' :: spaces ind ++ ['\x7d']

/-- Array items, each on its own indented line, separated by commas. -/
def dumpsItems : Nat → List Json → Str
  | _, [] => []
  | ind, [x] => spaces ind ++ dumpsVal ind x
  | ind, x :: y :: tl =>
    spaces ind ++ dumpsVal ind x ++ ',' :: '\n' :: dumpsItems ind (y :: tl)

/-- Object members, each on its own indented line, key and value separated
by ": ". -/
def dumpsMembers : Nat → List (Str × Json) → Str
  | _, [] => []
  | ind, [(k, v)] => spaces ind ++ quoteStr k ++ ':' :: ' ' :: dumpsVal ind v
  | ind, (k, v) :: m :: tl =>
    spaces ind ++ quoteStr k ++ ':' :: ' ' :: dumpsVal ind v ++
      ',' :: '\n' :: dumpsMembers ind (m :: tl)

end

/-- `json.dumps(v, indent=2, ensure_ascii=False)` as used for spec_pretty
and key_pretty. -/
def dumps (v : Json) : Str := dumpsVal 0 v

/-- Mock completion returned for a prompt containing the requirements marker (base_agent.py lines 110-157). -/
def mockRequirementsText : String :=
"
        \x7b
        \"title\": \"User Management API\",
        \"summary\": \"CRUD API for managing users\",
        \"scope\": \x7b
            \"in\": [\"Create user\", \"List users\", \"Update user\", \"Delete user\"],
            \"out\": [\"Authentication\"]
        \x7d,
        \"functional_requirements\": [
            \"Create a user\",
            \"List users\",
            \"Update a user\",
            \"Delete a user\"
        ],
        \"non_functional_requirements\": [
            \"Readable code\",
            \"Fast response\"
        ],
        \"entities\": [
            \x7b
            \"name\": \"User\",
            \"fields\": [
                \x7b\"name\": \"id\", \"type\": \"int\", \"required\": true\x7d,
                \x7b\"name\": \"name\", \"type\": \"str\", \"required\": true\x7d,
                \x7b\"name\": \"email\", \"type\": \"str\", \"required\": true\x7d
            ]
            \x7d
        ],
        \"api_endpoints\": [
            \x7b\"method\": \"POST\", \"path\": \"/users\", \"description\": \"Create user\"\x7d,
            \x7b\"method\": \"GET\", \"path\": \"/users\", \"description\": \"List users\"\x7d
        ],
        \"acceptance_criteria_gherkin\": [
            \x7b
            \"feature\": \"Create user\",
            \"scenario\": \"User is created\",
            \"given\": [\"API running\"],
            \"when\": [\"POST /users\"],
            \"then\": [\"User stored\"]
            \x7d
        ],
        \"tech_choice\": \x7b
            \"language\": \"python\",
            \"framework\": \"fastapi\",
            \"test_framework\": \"pytest\"
        \x7d
        \x7d
        "

/-- Mock completion returned for a prompt containing the code marker (base_agent.py lines 161-182). -/
def mockCodeText : String :=
"
        \x7b
        \"files\": [
            \x7b
            \"path\": \"app/main.py\",
            \"content\": \"from fastapi import FastAPI\\nfrom app.routes import router\\n\\napp = FastAPI()\\napp.include_router(router)\"
            \x7d,
            \x7b
            \"path\": \"app/models.py\",
            \"content\": \"from pydantic import BaseModel\\n\\nclass User(BaseModel):\\n    id: int\\n    name: str\\n    email: str\"
            \x7d,
            \x7b
            \"path\": \"app/routes.py\",
            \"content\": \"from fastapi import APIRouter\\nfrom app.models import User\\n\\nrouter = APIRouter()\\nusers = []\\n\\n@router.post(\x27/users\x27)\\ndef create_user(user: User):\\n    users.append(user)\\n    return user\\n\\n@router.get(\x27/users\x27)\\ndef list_users():\\n    return users\"
            \x7d,
            \x7b
            \"path\": \"requirements.txt\",
            \"content\": \"fastapi\\nuvicorn\\npytest\"
            \x7d
        ]
        \x7d
        "

/-- Mock completion returned for a prompt containing the test marker (base_agent.py lines 186-195). -/
def mockTestText : String :=
"
        \x7b
        \"files\": [
            \x7b
            \"path\": \"tests/test_api.py\",
            \"content\": \"from fastapi.testclient import TestClient\\nfrom app.main import app\\n\\nclient = TestClient(app)\\n\\ndef test_create_user():\\n    r = client.post(\x27/users\x27, json=\x7b\x27id\x27:1,\x27name\x27:\x27A\x27,\x27email\x27:\x27a@test.com\x27\x7d)\\n    assert r.status_code == 200\\n\\ndef test_list_users():\\n    r = client.get(\x27/users\x27)\\n    assert r.status_code == 200\"
            \x7d
        ]
        \x7d
        "

/-- Constant part of the requirements prompt before the interpolated user story (requirements_agent.py lines 15-20). -/
def reqPromptPre : String :=
"
Transform this user story into a clear, structured software specification.

USER STORY:
"

/-- Constant part of the requirements prompt after the user story (requirements_agent.py lines 20-66). -/
def reqPromptPost : String :=
"

Return JSON with this schema:
\x7b
  \"title\": \"short title\",
  \"summary\": \"1-3 sentences\",
  \"scope\": \x7b
    \"in\": [\"...\"],
    \"out\": [\"...\"]
  \x7d,
  \"functional_requirements\": [\"...\"],
  \"non_functional_requirements\": [\"...\"],
  \"entities\": [
    \x7b
      \"name\": \"EntityName\",
      \"fields\": [\x7b\"name\":\"id\",\"type\":\"str/int\",\"required\":true\x7d, ...]
    \x7d
  ],
  \"api_endpoints\": [
    \x7b
      \"method\":\"GET/POST/PUT/DELETE\",
      \"path\":\"/...\",
      \"description\":\"...\",
      \"request_body_example\": \x7b\x7d,
      \"response_example\": \x7b\x7d
    \x7d
  ],
  \"acceptance_criteria_gherkin\": [
    \x7b
      \"feature\":\"...\",
      \"scenario\":\"...\",
      \"given\":[\"...\"],
      \"when\":[\"...\"],
      \"then\":[\"...\"]
    \x7d
  ],
  \"tech_choice\": \x7b
    \"language\":\"python\",
    \"framework\":\"fastapi\",
    \"test_framework\":\"pytest\"
  \x7d
\x7d

Rules:
- Keep it implementable in a small demo.
- Prefer FastAPI CRUD in-memory or SQLite (simple).
- Provide at least 3 endpoints (CRUD).
"

/-- Constant part of the code prompt before the pretty-printed spec (code_agent.py lines 20-24). -/
def codePromptPre : String :=
"
You are generating a small but clean codebase for the given spec.

SPEC JSON:
"

/-- Constant part of the code prompt after the spec (code_agent.py lines 24-41). -/
def codePromptPost : String :=
"

Generate a minimal FastAPI project with:
- app/main.py (FastAPI app)
- app/models.py (Pydantic models)
- app/storage.py (in-memory storage or SQLite if very simple)
- app/routes.py (API routes)
- requirements.txt
- README_generated.md (how to run)

Constraints:
- Keep it simple and runnable.
- Use Pydantic models.
- Provide CRUD for main entity.
- Code must be complete, no placeholders like TODO.
- Return JSON object: \x7b \"files\": [\x7b\"path\":\"...\",\"content\":\"...\"\x7d, ...] \x7d
- No markdown. Only JSON.
"

/-- Constant part of the test prompt before the pretty-printed spec (test_agent.py lines 23-27). -/
def testPromptPre : String :=
"
Generate pytest tests for a FastAPI app following this spec.

SPEC:
"

/-- Constant part of the test prompt between the spec and the key files (test_agent.py lines 27-30). -/
def testPromptMid : String :=
"

KEY CODE FILES (for context):
"

/-- Constant part of the test prompt after the key files (test_agent.py lines 30-38). -/
def testPromptPost : String :=
"

Requirements:
- Use fastapi.testclient.TestClient
- Create tests for: create, read list, read by id, update, delete
- Include at least 2 edge cases (invalid payload, missing id, etc.)
- Return JSON object: \x7b \"files\": [\x7b\"path\":\"tests/test_api.py\",\"content\":\"...\"\x7d, ...] \x7d
- No markdown. Only JSON.
"

/-- Marker phrase selecting the requirements fixture. -/
def requirementsMarker : String := "Transform this user story"

/-- Marker phrase selecting the code fixture. -/
def codeMarker : String := "Generate a minimal FastAPI project"

/-- Marker phrase selecting the test fixture. -/
def testMarker : String := "Generate pytest tests"

/-- Python substring containment (the `in` operator on str). -/
def strIn (needle : Str) : Str → Bool
  | [] => needle.isEmpty
  | c :: rest => needle.isPrefixOf (c :: rest) || strIn needle rest

/-- BaseAgent.mock_response: pick a fixed fixture by searching for a marker
phrase inside the outgoing prompt; with no match, return "\x7b\x7d". -/
def mock_response (user_prompt : Str) : Str :=
  if strIn requirementsMarker.toList user_prompt then mockRequirementsText.toList
  else if strIn codeMarker.toList user_prompt then mockCodeText.toList
  else if strIn testMarker.toList user_prompt then mockTestText.toList
  else "\x7b\x7d".toList

/-- Identity fields of a BaseAgent. -/
structure Agent where
  name : Str
  role : Str
  goal : Str
  backstory : Str

/-- BaseAgent.system_prompt. -/
def system_prompt (a : Agent) : Str :=
  "You are ".toList ++ a.name ++ ".\nROLE: ".toList ++ a.role ++
    "\nGOAL: ".toList ++ a.goal ++ "\nCONTEXT: ".toList ++ a.backstory ++
    "\nBe concise, correct, and produce outputs in the requested format.\n".toList

/-- A chat client behavior: a conversation of (role, content) messages to
either a completion text or a raised exception carrying a message.  The
temperature argument is forwarded verbatim by the source and never affects
control flow, so it is not modelled. -/
abbrev ChatFn := List (Str × Str) → Except Str Str

/-- BaseAgent.ask: send system and user message; on any exception from the
client fall back to the offline mock response for the same prompt. -/
def ask (a : Agent) (chat : ChatFn) (user_prompt : Str) : Str :=
  match chat [("system".toList, system_prompt a), ("user".toList, user_prompt)] with
  | Except.ok t => t
  | Except.error _ => mock_response user_prompt

/-- Errors that can escape ask_json and the stage mapping code.
`malformed` is the ValueError raised at base_agent.py line 220, carrying the
first 400 characters of the offending text.  `decodeErr` is the
json.JSONDecodeError raised uncaught by `json.loads(snippet)` at line 218.
`attrErr`, `typeErr` and `keyErr` stand for the AttributeError / TypeError /
KeyError a stage's mapping loop raises on unexpectedly shaped data (a
non-string "content" would in fact only crash later, at file-write time;
it is folded into `typeErr` here). -/
inductive AgentErr where
  | malformed (preview : Str)
  | decodeErr
  | attrErr
  | typeErr
  | keyErr
  deriving DecidableEq

/-- Python `text.find(c)`: index of the first occurrence, if any. -/
def pyFind (text : Str) (c : Char) : Option Nat :=
  text.findIdx? (fun x => x = c)

/-- Python `text.rfind(c)`: index of the last occurrence, if any. -/
def pyRFind (text : Str) (c : Char) : Option Nat :=
  (text.reverse.findIdx? (fun x => x = c)).map (fun i => text.length - 1 - i)

/-- The JSON-extraction step of BaseAgent.ask_json (lines 209-220): strict
parse first; otherwise parse the substring from the first brace to the last
brace when that window exists; the window parse failing raises uncaught
(decodeErr); no window raises the MalformedOutput ValueError with a
400-character preview. -/
def extract_json (text : Str) : Except AgentErr Json :=
  match loads text with
  | some v => Except.ok v
  | none =>
    match pyFind text '\x7b', pyRFind text '\x7d' with
    | some s, some e =>
      if s < e then
        match loads ((text.drop s).take (e + 1 - s)) with
        | some v => Except.ok v
        | none => Except.error AgentErr.decodeErr
      else Except.error (AgentErr.malformed (text.take 400))
    | _, _ => Except.error (AgentErr.malformed (text.take 400))

/-- Instruction appended to every prompt by ask_json before calling ask. -/
def importantTail : String :=
  "\n\nIMPORTANT: Return ONLY a valid JSON object. No markdown. No code fences."

/-- BaseAgent.ask_json: append the strict instruction, ask (with mock
fallback), strip, then extract JSON. -/
def ask_json (a : Agent) (chat : ChatFn) (user_prompt : Str) : Except AgentErr Json :=
  extract_json (pyStrip (ask a chat (user_prompt ++ importantTail.toList)))

/-- The key under which a stage's completion lists its generated files. -/
def filesKey : String := "files"

/-- One pass of the loop `for f in files: out[f["path"].strip()] = f["content"]`
shared by CodeAgent.generate_code_files and TestAgent.generate_tests,
accumulating the output dict. -/
def mapFiles : List Json → List (Str × Str) → Except AgentErr (List (Str × Str))
  | [], out => Except.ok out
  | f :: rest, out =>
    match f with
    | Json.obj ms =>
      match assocLookup ms "path".toList with
      | some (Json.str p) =>
        match assocLookup ms "content".toList with
        | some (Json.str c) => mapFiles rest (assocSet out (pyStrip p) c)
        | some _ => Except.error AgentErr.typeErr
        | none => Except.error AgentErr.keyErr
      | some _ => Except.error AgentErr.typeErr
      | none => Except.error AgentErr.keyErr
    | _ => Except.error AgentErr.typeErr

/-- Map the parsed completion object to the generated-file dict:
`files = data.get("files", [])` followed by the loop above. -/
def filesOf (data : Json) : Except AgentErr (List (Str × Str)) :=
  match data with
  | Json.obj ms =>
    match (assocLookup ms filesKey.toList).getD (Json.arr []) with
    | Json.arr xs => mapFiles xs []
    | _ => Except.error AgentErr.typeErr
  | _ => Except.error AgentErr.attrErr

/-- The full requirements prompt built by RequirementsAgent.generate_spec. -/
def requirements_prompt (user_story : Str) : Str :=
  reqPromptPre.toList ++ user_story ++ reqPromptPost.toList

/-- RequirementsAgent.generate_spec: build the prompt and return the parsed
JSON object unchanged. -/
def generate_spec (a : Agent) (chat : ChatFn) (user_story : Str) : Except AgentErr Json :=
  ask_json a chat (requirements_prompt user_story)

/-- The full code prompt built by CodeAgent.generate_code_files, embedding
the pretty-printed spec. -/
def code_prompt (spec : Json) : Str :=
  codePromptPre.toList ++ dumps spec ++ codePromptPost.toList

/-- CodeAgent.generate_code_files: ask for JSON, then map it to a dict of
generated files. -/
def generate_code_files (a : Agent) (chat : ChatFn) (spec : Json) :
    Except AgentErr (List (Str × Str)) :=
  (ask_json a chat (code_prompt spec)).bind filesOf

/-- The three file names kept by TestAgent.generate_tests. -/
def key_file_names : List Str :=
  ["app/main.py".toList, "app/routes.py".toList, "app/models.py".toList]

/-- The dict comprehension filtering generated_files down to the key files,
preserving the insertion order of generated_files. -/
def key_files (generated_files : List (Str × Str)) : List (Str × Str) :=
  generated_files.filter (fun kv => key_file_names.contains kv.1)

/-- The full test prompt built by TestAgent.generate_tests, embedding the
pretty-printed spec and the pretty-printed filtered key files. -/
def test_prompt (spec : Json) (generated_files : List (Str × Str)) : Str :=
  testPromptPre.toList ++ dumps spec ++ testPromptMid.toList ++
    dumps (Json.obj ((key_files generated_files).map (fun kv => (kv.1, Json.str kv.2)))) ++
    testPromptPost.toList

/-- TestAgent.generate_tests. -/
def generate_tests (a : Agent) (chat : ChatFn) (spec : Json)
    (generated_files : List (Str × Str)) : Except AgentErr (List (Str × Str)) :=
  (ask_json a chat (test_prompt spec generated_files)).bind filesOf

/-- posixpath.join for two components, as used by save_files. -/
def osJoin (a b : Str) : Str :=
  if b.headD ' ' = '/' then b
  else if a.isEmpty || a.getLastD ' ' = '/' then a ++ b
  else a ++ '/' :: b

/-- posixpath.dirname: everything before the last slash; a run of leading
slashes is kept, trailing slashes are otherwise stripped. -/
def pyDirname (p : Str) : Str :=
  match pyRFind p '/' with
  | none => []
  | some i =>
    let head := p.take (i + 1)
    if head.all (fun c => c = '/') then head
    else (head.reverse.dropWhile (fun c => c = '/')).reverse

/-- The observable filesystem state: the set of directories that makedirs
has created and the file contents keyed by path, in creation order. -/
structure FS where
  dirs : List Str
  files : List (Str × Str)

/-- os.makedirs(d, exist_ok=True), observed as set insertion. -/
def insertDir (ds : List Str) (d : Str) : List Str :=
  if ds.contains d then ds else ds ++ [d]

/-- CodeAgent.save_files / TestAgent.save_files (the two bodies are
identical): for each entry in dict order, create the parent directory and
write the file at os.path.join(root_dir, rel_path), collecting the relative
paths written. -/
def save_files (files : List (Str × Str)) (root_dir : Str) (fs : FS) :
    List Str × FS :=
  match files with
  | [] => ([], fs)
  | (rel, content) :: rest =>
    let absp := osJoin root_dir rel
    let fs1 : FS := ⟨insertDir fs.dirs (pyDirname absp), assocSet fs.files absp content⟩
    let pr := save_files rest root_dir fs1
    (rel :: pr.1, pr.2)

/-- The dict returned by Orchestrator.run. -/
structure RunResult where
  spec : Json
  code_written : List Str
  tests_written : List Str

/-- Orchestrator.run: requirements, then code generation and persistence,
then test generation and persistence.  Each agent calls its own client; the
filesystem is threaded through and kept on error (exceptions propagate). -/
def orchestrator_run (ra ca ta : Agent) (chR chC chT : ChatFn)
    (project_root user_story : Str) (fs : FS) :
    Except AgentErr RunResult × FS :=
  match generate_spec ra chR user_story with
  | Except.error e => (Except.error e, fs)
  | Except.ok spec =>
    match generate_code_files ca chC spec with
    | Except.error e => (Except.error e, fs)
    | Except.ok code_files =>
      let saved := save_files code_files project_root fs
      match generate_tests ta chT spec code_files with
      | Except.error e => (Except.error e, saved.2)
      | Except.ok test_files =>
        let saved2 := save_files test_files project_root saved.2
        (Except.ok ⟨spec, saved.1, saved2.1⟩, saved2.2)

/-- One HTTP response as seen by OpenAICompatibleClient.chat: status code,
body text, and `choices[0].message.content` when the body has that shape. -/
structure HttpResp where
  status : Nat
  body : Str
  content : Option Str

/-- Outcome of one POST attempt: a raised transport exception, or a
response. -/
inductive Attempt where
  | exn (msg : Str)
  | http (r : HttpResp)

/-- Errors arising from a single attempt inside chat's retry loop. -/
inductive ChatErr where
  | httpError (status : Nat) (bodyTrunc : Str)
  | exnError (msg : Str)
  | respShapeError
  deriving DecidableEq

/-- The body of one loop iteration: a transport exception fails; a status
of 400 or more raises LLMError with the body truncated to 500 characters;
otherwise the extracted content is returned, a missing content shape
failing like any other exception. -/
def attemptOutcome : Attempt → Except ChatErr Str
  | Attempt.exn m => Except.error (ChatErr.exnError m)
  | Attempt.http r =>
    if 400 ≤ r.status then Except.error (ChatErr.httpError r.status (r.body.take 500))
    else
      match r.content with
      | some c => Except.ok c
      | none => Except.error ChatErr.respShapeError

/-- The last error of a failing attempt (total helper for stating results). -/
def failErr (a : Attempt) : ChatErr :=
  match attemptOutcome a with
  | Except.error e => e
  | Except.ok _ => ChatErr.exnError []

/-- The retry loop of OpenAICompatibleClient.chat over an oracle giving the
outcome of each attempt.  Returns the result, the backoff sleeps performed
(in tenths of a second: the source sleeps 0.6 * (attempt + 1) seconds after
every failed attempt, the last included) and the number of attempts made. -/
def chatRun (oracle : Nat → Attempt) :
    Nat → Nat → List Nat → ChatErr → Except ChatErr Str × List Nat × Nat
  | 0, i, sleeps, last => (Except.error last, sleeps, i)
  | Nat.succ rem, i, sleeps, _ =>
    match attemptOutcome (oracle i) with
    | Except.ok c => (Except.ok c, sleeps, i + 1)
    | Except.error e => chatRun oracle rem (i + 1) (sleeps ++ [6 * (i + 1)]) e

/-- OpenAICompatibleClient.chat with max_retries from the configuration:
range(max_retries + 1) attempts, then LLMError carrying the last error. -/
def chat_model (max_retries : Nat) (oracle : Nat → Attempt) :
    Except ChatErr Str × List Nat × Nat :=
  chatRun oracle (max_retries + 1) 0 [] (ChatErr.exnError [])

/-- The sleeps performed by k consecutive failing attempts starting at
attempt index i: 6·(i+1), 6·(i+2), ... in tenths of a second. -/
def backoffs (i : Nat) : Nat → List Nat
  | 0 => []
  | Nat.succ k => 6 * (i + 1) :: backoffs (i + 1) k

/-- Split a path on slashes. -/
def splitSlash : Str → List Str
  | [] => [[]]
  | c :: rest =>
    if c = '/' then [] :: splitSlash rest
    else
      match splitSlash rest with
      | hd :: tl => (c :: hd) :: tl
      | [] => [[c]]

/-- Resolve empty, "." and ".." segments of a relative path the way the
filesystem would (".." popping one real segment, or surviving at the top). -/
def resolveSegs (segs : List Str) : List Str :=
  (segs.foldl (fun acc s =>
    if s.isEmpty || s = ".".toList then acc
    else if s = "..".toList then
      match acc with
      | hd :: tl => if hd = "..".toList then s :: acc else tl
      | [] => [s]
    else s :: acc) []).reverse

/-- Whether os.path.join(root, rel) resolves to a location inside root. -/
def path_inside (root rel : Str) : Bool :=
  (resolveSegs (splitSlash root)).isPrefixOf (resolveSegs (splitSlash (osJoin root rel)))

/-- Whether an extraction result is a successfully parsed JSON object. -/
def isOkObj : Except AgentErr Json → Bool
  | Except.ok (Json.obj _) => true
  | _ => false

/-- Whether a parse result is a JSON object. -/
def isObjOpt : Option Json → Bool
  | some (Json.obj _) => true
  | _ => false

/-- No mock marker phrase occurs in the given prompt text. -/
def noMarker (q : Str) : Bool :=
  !(strIn requirementsMarker.toList q) && !(strIn codeMarker.toList q) &&
    !(strIn testMarker.toList q)

/-- Whether ask_json's bracket fallback window exists for a text: a first
brace and a last brace with the last strictly after the first. -/
def fallback_window (t : Str) : Bool :=
  match pyFind t '\x7b', pyRFind t '\x7d' with
  | some s, some e => decide (s < e)
  | _, _ => false

/-- Brace balance check (nesting discipline): used to express the spec's
"no additional unbalanced braces" side condition on a text. -/
def braceBal : Str → Nat → Bool
  | [], 0 => true
  | [], _ + 1 => false
  | '\x7b' :: r, d => braceBal r (d + 1)
  | '\x7d' :: _, 0 => false
  | '\x7d' :: r, d + 1 => braceBal r d
  | _ :: r, d => braceBal r d

/-- A text whose braces are balanced. -/
def braceBalanced (l : Str) : Bool := braceBal l 0

/-- A concrete agent identity used in witnesses. -/
def agentW : Agent := ⟨"A".toList, "r".toList, "g".toList, "b".toList⟩

/-- A chat client whose every call raises (unreachable endpoint). -/
def failing_chat : ChatFn := fun _ => Except.error "connection refused".toList

/-- A chat client returning a completion with no JSON at all, driving the
test stage into MalformedOutput. -/
def chatBadTest : ChatFn := fun _ => Except.ok "no json here".toList

/-- The value of a successful JSON stage result (null on error). -/
def okJson : Except AgentErr Json → Json
  | Except.ok v => v
  | Except.error _ => Json.null

/-- The value of a successful file-mapping stage result (empty on error). -/
def okFiles : Except AgentErr (List (Str × Str)) → List (Str × Str)
  | Except.ok m => m
  | Except.error _ => []

/-- A concrete user story used in witnesses. -/
def storyW : Str := "demo".toList

/-- The specification the requirements stage returns offline (the parsed
requirements fixture). -/
def specW : Json := okJson (generate_spec agentW failing_chat storyW)

/-- The code files the code stage returns offline. -/
def cfW : List (Str × Str) := okFiles (generate_code_files agentW failing_chat specW)

/-- The test files the test stage returns offline. -/
def tfW : List (Str × Str) := okFiles (generate_tests agentW failing_chat specW cfW)

/-- A concrete project root used in witnesses. -/
def rootW : Str := "project".toList

/-- The empty filesystem. -/
def fs0 : FS := ⟨[], []⟩

/-- A relative path escaping the project root. -/
def escRel : Str := "../../etc/passwd".toList

/-- An empty specification object. -/
def specEmpty : Json := Json.obj []

/-- Two generated-file dicts agreeing on every key as a mapping but listing
the key files in different insertion orders. -/
def gfA : List (Str × Str) :=
  [("app/main.py".toList, "M".toList), ("app/routes.py".toList, "R".toList)]

/-- The same mapping as gfA with the opposite insertion order. -/
def gfB : List (Str × Str) :=
  [("app/routes.py".toList, "R".toList), ("app/main.py".toList, "M".toList)]

/-- A chat client that answers with a non-trivial file list exactly when the
conversation contains the prompt built from gfA, and with an empty object
otherwise: it distinguishes the two prompts. -/
def chatDistinguish : ChatFn := fun msgs =>
  if msgs.any (fun m => m.2 == test_prompt specEmpty gfA ++ importantTail.toList)
  then Except.ok "\x7b\"files\": [\x7b\"path\": \"a\", \"content\": \"b\"\x7d]\x7d".toList
  else Except.ok "\x7b\x7d".toList

/-- Two generated-file dicts with different extra entries but identical
key-file restrictions (same entries, same order). -/
def gfW1 : List (Str × Str) := [("x".toList, "1".toList), ("app/main.py".toList, "M".toList)]

/-- Companion to gfW1. -/
def gfW2 : List (Str × Str) := [("app/main.py".toList, "M".toList), ("y".toList, "2".toList)]

/-- An attempt oracle where the endpoint is always down. -/
def oracleW : Nat → Attempt := fun _ => Attempt.exn "conn".toList

/-! Helper lemmas about association-list update and save_files. -/

theorem find?_map_set (m : List (Str × Str)) (k : Str) (v : Str)
    (h : m.any (fun pr => pr.1 == k) = true) :
    (m.map (fun pr => if pr.1 == k then (k, v) else pr)).find? (fun pr => pr.1 == k) =
      some (k, v) := by
  induction m with
  | nil => simp at h
  | cons hd tl ih =>
    by_cases hk : (hd.1 == k) = true
    · rw [List.map_cons, if_pos hk]
      exact List.find?_cons_of_pos _ (by simp)
    · simp only [List.any_cons, hk, Bool.false_or] at h
      rw [List.map_cons, if_neg hk]
      rw [List.find?_cons_of_neg _ (by simp only [hk]; exact Bool.false_ne_true)]
      exact ih h

theorem find?_append_single (m : List (Str × Str)) (k : Str) (v : Str)
    (h : m.any (fun pr => pr.1 == k) = false) :
    (m ++ [(k, v)]).find? (fun pr => pr.1 == k) = some (k, v) := by
  induction m with
  | nil => exact List.find?_cons_of_pos _ (by simp)
  | cons hd tl ih =>
    simp only [List.any_cons, Bool.or_eq_false_iff] at h
    rw [List.cons_append, List.find?_cons_of_neg _ (by rw [h.1]; exact Bool.false_ne_true)]
    exact ih h.2

theorem find?_map_set_other (m : List (Str × Str)) (k k' : Str) (v : Str)
    (hne : (k == k') = false) :
    (m.map (fun pr => if pr.1 == k then (k, v) else pr)).find? (fun pr => pr.1 == k') =
      m.find? (fun pr => pr.1 == k') := by
  induction m with
  | nil => rfl
  | cons hd tl ih =>
    by_cases hk : (hd.1 == k) = true
    · have hdk : hd.1 = k := by simpa using hk
      rw [List.map_cons, if_pos hk, List.find?_cons, List.find?_cons]
      have h1 : ((k, v).1 == k') = false := by simpa using hne
      have h2 : (hd.1 == k') = false := by rw [hdk]; exact hne
      simp only [h1, h2]
      exact ih
    · rw [List.map_cons, if_neg hk, List.find?_cons, List.find?_cons]
      by_cases hk' : (hd.1 == k') = true
      · simp only [hk']
      · simp only [eq_false_of_ne_true hk']
        exact ih

theorem find?_append_single_other (m : List (Str × Str)) (k k' : Str) (v : Str)
    (hne : (k == k') = false) :
    (m ++ [(k, v)]).find? (fun pr => pr.1 == k') = m.find? (fun pr => pr.1 == k') := by
  induction m with
  | nil =>
    rw [List.nil_append, List.find?_cons]
    have h1 : ((k, v).1 == k') = false := by simpa using hne
    simp [h1]
  | cons hd tl ih =>
    rw [List.cons_append, List.find?_cons, List.find?_cons]
    by_cases hk' : (hd.1 == k') = true
    · simp only [hk']
    · simp only [eq_false_of_ne_true hk']
      exact ih

theorem assocLookup_set_self (m : List (Str × Str)) (k : Str) (v : Str) :
    assocLookup (assocSet m k v) k = some v := by
  unfold assocLookup assocSet
  by_cases h : m.any (fun pr => pr.1 == k) = true
  · rw [if_pos h, find?_map_set m k v h]
    rfl
  · have h' : m.any (fun pr => pr.1 == k) = false := eq_false_of_ne_true h
    rw [if_neg h, find?_append_single m k v h']
    rfl

theorem assocLookup_set_other (m : List (Str × Str)) (k k' : Str) (v : Str)
    (hne : (k == k') = false) :
    assocLookup (assocSet m k v) k' = assocLookup m k' := by
  unfold assocLookup assocSet
  by_cases h : m.any (fun pr => pr.1 == k) = true
  · rw [if_pos h, find?_map_set_other m k k' v hne]
  · rw [if_neg h, find?_append_single_other m k k' v hne]

theorem save_files_written (files : List (Str × Str)) (root : Str) (fs : FS) :
    (save_files files root fs).1 = files.map (fun pr => pr.1) := by
  induction files generalizing fs with
  | nil => rfl
  | cons kv rest ih =>
    obtain ⟨rel, c⟩ := kv
    simp [save_files, ih]

theorem assocSet_isSome_mono (m : List (Str × Str)) (k v p : Str)
    (h : (assocLookup m p).isSome = true) :
    (assocLookup (assocSet m k v) p).isSome = true := by
  by_cases hpk : (k == p) = true
  · have hk : k = p := by simpa using hpk
    subst hk
    rw [assocLookup_set_self]
    rfl
  · rw [assocLookup_set_other m k p v (eq_false_of_ne_true hpk)]
    exact h

theorem save_files_lookup_other (files : List (Str × Str)) (root p : Str) :
    ∀ fs : FS, (∀ pr ∈ files, osJoin root pr.1 ≠ p) →
    assocLookup (save_files files root fs).2.files p = assocLookup fs.files p := by
  induction files with
  | nil => intro fs _; rfl
  | cons kv rest ih =>
    obtain ⟨rel, c⟩ := kv
    intro fs h
    simp only [save_files]
    rw [ih _ (fun r hr => h r (List.mem_cons_of_mem (rel, c) hr))]
    exact assocLookup_set_other _ _ _ _
      (beq_eq_false_iff_ne.mpr (h (rel, c) (List.mem_cons_self _ _)))

theorem save_files_lookup (files : List (Str × Str)) (root : Str) :
    ∀ fs : FS, (files.map (fun pr => osJoin root pr.1)).Nodup →
    ∀ pr ∈ files, assocLookup (save_files files root fs).2.files (osJoin root pr.1) = some pr.2 := by
  induction files with
  | nil => intro fs _ pr hpr; cases hpr
  | cons kv rest ih =>
    obtain ⟨rel, c⟩ := kv
    intro fs hnd pr hpr
    rw [List.map_cons] at hnd
    rw [List.nodup_cons] at hnd
    rcases List.mem_cons.mp hpr with heq | htl
    · subst heq
      simp only [save_files]
      rw [save_files_lookup_other rest root _ _ ?hother]
      case hother =>
        intro q hq
        intro hcontra
        exact hnd.1 (hcontra ▸ List.mem_map_of_mem (fun pr => osJoin root pr.1) hq)
      exact assocLookup_set_self fs.files _ _
    · simp only [save_files]
      exact ih _ hnd.2 pr htl

theorem insertDir_mem_self (ds : List Str) (d : Str) : d ∈ insertDir ds d := by
  unfold insertDir
  by_cases h : ds.contains d = true
  · rw [if_pos h]
    exact List.mem_of_elem_eq_true h
  · rw [if_neg h]
    exact List.mem_append_right _ (List.mem_singleton.mpr rfl)

theorem insertDir_mem_mono (ds : List Str) (d e : Str) (h : d ∈ ds) : d ∈ insertDir ds e := by
  unfold insertDir
  by_cases hc : ds.contains e = true
  · rw [if_pos hc]; exact h
  · rw [if_neg hc]; exact List.mem_append_left _ h

theorem save_files_dirs_mono (files : List (Str × Str)) (root d : Str) :
    ∀ fs : FS, d ∈ fs.dirs → d ∈ (save_files files root fs).2.dirs := by
  induction files with
  | nil => intro fs h; exact h
  | cons kv rest ih =>
    obtain ⟨rel, c⟩ := kv
    intro fs h
    simp only [save_files]
    exact ih _ (insertDir_mem_mono _ _ _ h)

theorem save_files_dirname_mem (files : List (Str × Str)) (root : Str) :
    ∀ fs : FS, ∀ pr ∈ files, pyDirname (osJoin root pr.1) ∈ (save_files files root fs).2.dirs := by
  induction files with
  | nil => intro fs pr hpr; cases hpr
  | cons kv rest ih =>
    obtain ⟨rel, c⟩ := kv
    intro fs pr hpr
    rcases List.mem_cons.mp hpr with heq | htl
    · subst heq
      simp only [save_files]
      exact save_files_dirs_mono rest root _ _ (insertDir_mem_self _ _)
    · simp only [save_files]
      exact ih _ pr htl

theorem save_files_isSome_mono (files : List (Str × Str)) (root p : Str) :
    ∀ fs : FS, (assocLookup fs.files p).isSome = true →
    (assocLookup (save_files files root fs).2.files p).isSome = true := by
  induction files with
  | nil => intro fs h; exact h
  | cons kv rest ih =>
    obtain ⟨rel, c⟩ := kv
    intro fs h
    simp only [save_files]
    exact ih _ (assocSet_isSome_mono _ _ _ _ h)

theorem save_files_key_isSome (files : List (Str × Str)) (root : Str) :
    ∀ fs : FS, ∀ pr ∈ files,
    (assocLookup (save_files files root fs).2.files (osJoin root pr.1)).isSome = true := by
  induction files with
  | nil => intro fs pr hpr; cases hpr
  | cons kv rest ih =>
    obtain ⟨rel, c⟩ := kv
    intro fs pr hpr
    rcases List.mem_cons.mp hpr with heq | htl
    · subst heq
      simp only [save_files]
      refine save_files_isSome_mono rest root _ _ ?_
      rw [assocLookup_set_self]
      rfl
    · simp only [save_files]
      exact ih _ pr htl

/-! Mock fallback lemmas. -/

theorem mock_response_cases (p : Str) :
    mock_response p = mockRequirementsText.toList ∨ mock_response p = mockCodeText.toList ∨
      mock_response p = mockTestText.toList ∨ mock_response p = "\x7b\x7d".toList := by
  unfold mock_response
  by_cases h1 : strIn requirementsMarker.toList p = true
  · rw [if_pos h1]
    exact Or.inl rfl
  · rw [if_neg h1]
    by_cases h2 : strIn codeMarker.toList p = true
    · rw [if_pos h2]
      exact Or.inr (Or.inl rfl)
    · rw [if_neg h2]
      by_cases h3 : strIn testMarker.toList p = true
      · rw [if_pos h3]
        exact Or.inr <| Or.inr <| Or.inl rfl
      · rw [if_neg h3]
        exact Or.inr <| Or.inr <| Or.inr rfl

theorem isOkObj_mock_requirements :
    isOkObj (extract_json (pyStrip mockRequirementsText.toList)) = true := by rfl

theorem isOkObj_mock_code :
    isOkObj (extract_json (pyStrip mockCodeText.toList)) = true := by rfl

theorem isOkObj_mock_test :
    isOkObj (extract_json (pyStrip mockTestText.toList)) = true := by rfl

theorem isOkObj_mock_empty :
    isOkObj (extract_json (pyStrip "\x7b\x7d".toList)) = true := by rfl

theorem filesOk_mock_requirements :
    ((extract_json (pyStrip mockRequirementsText.toList)).bind filesOf).isOk = true := by rfl

theorem filesOk_mock_code :
    ((extract_json (pyStrip mockCodeText.toList)).bind filesOf).isOk = true := by rfl

theorem filesOk_mock_test :
    ((extract_json (pyStrip mockTestText.toList)).bind filesOf).isOk = true := by rfl

theorem filesOk_mock_empty :
    ((extract_json (pyStrip "\x7b\x7d".toList)).bind filesOf).isOk = true := by rfl

theorem isObjOpt_loads_mock_requirements :
    isObjOpt (loads mockRequirementsText.toList) = true := by rfl

theorem isObjOpt_loads_mock_code :
    isObjOpt (loads mockCodeText.toList) = true := by rfl

theorem isObjOpt_loads_mock_test :
    isObjOpt (loads mockTestText.toList) = true := by rfl

theorem isObjOpt_loads_mock_empty :
    isObjOpt (loads "\x7b\x7d".toList) = true := by rfl

theorem extract_mock_ok (p : Str) :
    isOkObj (extract_json (pyStrip (mock_response p))) = true := by
  rcases mock_response_cases p with h | h | h | h
  · rw [h]; exact isOkObj_mock_requirements
  · rw [h]; exact isOkObj_mock_code
  · rw [h]; exact isOkObj_mock_test
  · rw [h]; exact isOkObj_mock_empty

theorem files_mock_ok (p : Str) :
    ((extract_json (pyStrip (mock_response p))).bind filesOf).isOk = true := by
  rcases mock_response_cases p with h | h | h | h
  · rw [h]; exact filesOk_mock_requirements
  · rw [h]; exact filesOk_mock_code
  · rw [h]; exact filesOk_mock_test
  · rw [h]; exact filesOk_mock_empty

theorem loads_mock_obj (p : Str) : isObjOpt (loads (mock_response p)) = true := by
  rcases mock_response_cases p with h | h | h | h
  · rw [h]; exact isObjOpt_loads_mock_requirements
  · rw [h]; exact isObjOpt_loads_mock_code
  · rw [h]; exact isObjOpt_loads_mock_test
  · rw [h]; exact isObjOpt_loads_mock_empty

theorem isOk_of_isOkObj (r : Except AgentErr Json) (h : isOkObj r = true) :
    r.isOk = true := by
  cases r with
  | ok v => rfl
  | error e => simp [isOkObj] at h

/-- C1: if every call to the chat client raises, each of the three stage
operations still returns a syntactically valid instance of its output
schema — the requirements stage a JSON object, the code and test stages a
path-to-content mapping — taken from the fixed mock content, rather than
propagating the completion failure to the caller. -/
theorem degraded_mode_stage_outputs (ra ca ta : Agent) (story : Str) (spec : Json)
    (gf : List (Str × Str)) :
    isOkObj (generate_spec ra failing_chat story) = true ∧
    (generate_code_files ca failing_chat spec).isOk = true ∧
    (generate_tests ta failing_chat spec gf).isOk = true :=
  ⟨extract_mock_ok (requirements_prompt story ++ importantTail.toList),
    files_mock_ok (code_prompt spec ++ importantTail.toList),
    files_mock_ok (test_prompt spec gf ++ importantTail.toList)⟩

/-- C10: for every prompt, mock_response returns a string parsing as a JSON
object (a fixture selected by marker phrase, or "\x7b\x7d"); consequently with a
failing client ask_json never raises MalformedOutput, and a prompt matching
no marker phrase makes the stage silently return the empty JSON object. -/
theorem mock_fallback_always_parses (ag : Agent) (p : Str) :
    isObjOpt (loads (mock_response p)) = true ∧
    (ask_json ag failing_chat p).isOk = true ∧
    (noMarker (p ++ importantTail.toList) = true →
      ask_json ag failing_chat p = Except.ok (Json.obj [])) := by
  refine ⟨loads_mock_obj p, isOk_of_isOkObj _ (extract_mock_ok (p ++ importantTail.toList)), ?_⟩
  intro h
  have h3 : (!strIn requirementsMarker.toList (p ++ importantTail.toList) &&
      !strIn codeMarker.toList (p ++ importantTail.toList) &&
      !strIn testMarker.toList (p ++ importantTail.toList)) = true := h
  simp only [Bool.and_eq_true, Bool.not_eq_true'] at h3
  have hm : mock_response (p ++ importantTail.toList) = "\x7b\x7d".toList := by
    unfold mock_response
    rw [if_neg (by simpa using h3.1.1), if_neg (by simpa using h3.1.2),
      if_neg (by simpa using h3.2)]
  show extract_json (pyStrip (mock_response (p ++ importantTail.toList))) =
    Except.ok (Json.obj [])
  rw [hm]
  rfl

/-- Witness for C10 at the concrete marker-free prompt "hello". -/
theorem mock_fallback_always_parses_witness :
    noMarker ("hello".toList ++ importantTail.toList) = true ∧
    ask_json agentW failing_chat "hello".toList = Except.ok (Json.obj []) :=
  ⟨rfl, (mock_fallback_always_parses agentW "hello".toList).2.2 rfl⟩

/-! Lemmas locating the fallback window of extract_json. -/

theorem findIdx?_none_of (l : Str) (c : Char) (h : ∀ x ∈ l, x ≠ c) :
    l.findIdx? (fun x => x = c) = none := by
  rw [List.findIdx?_eq_none_iff]
  intro x hx
  simp [h x hx]

theorem pyFind_append_cons (pre rest : Str) (c : Char) (h : ∀ x ∈ pre, x ≠ c) :
    pyFind (pre ++ c :: rest) c = some pre.length := by
  unfold pyFind
  rw [List.findIdx?_append, findIdx?_none_of pre c h]
  simp

theorem pyRFind_append_cons (front suf : Str) (c : Char) (h : ∀ x ∈ suf, x ≠ c) :
    pyRFind (front ++ c :: suf) c = some front.length := by
  unfold pyRFind
  have hrev : (front ++ c :: suf).reverse = suf.reverse ++ c :: front.reverse := by
    rw [List.reverse_append, List.reverse_cons, List.append_assoc, List.singleton_append]
  rw [hrev, List.findIdx?_append,
    findIdx?_none_of suf.reverse c (fun x hx => h x (List.mem_reverse.mp hx))]
  simp only [Option.none_or, List.findIdx?_cons, decide_eq_true_eq, if_pos rfl,
    Option.map_some']
  simp [List.length_append]

/-- C2: for every input text that is a syntactically valid JSON object, the
extraction step of ask_json returns exactly the strict JSON parse of that
text: the strict parse is attempted first and is authoritative whenever it
succeeds, the bracket fallback never being consulted. -/
theorem strict_parse_authoritative (t : Str) (ms : List (Str × Json))
    (h : loads t = some (Json.obj ms)) :
    extract_json t = Except.ok (Json.obj ms) := by
  unfold extract_json
  rw [h]

/-- Witness for C2 on a concrete JSON object text. -/
theorem strict_parse_authoritative_witness :
    loads "\x7b\"a\": 1\x7d".toList = some (Json.obj [("a".toList, Json.num ['1'])]) ∧
    extract_json "\x7b\"a\": 1\x7d".toList =
      Except.ok (Json.obj [("a".toList, Json.num ['1'])]) :=
  ⟨rfl, strict_parse_authoritative _ _ rfl⟩

/-- C3 (counterexample): a text of the claimed shape whose prefix "\x7b\x7d "
contains only balanced braces — no additional unbalanced braces — yet the
fallback window starts at the prefix's first brace, json.loads raises on the
snippet, and the embedded object "\x7b\"a\":1\x7d" is not recovered. -/
theorem bracket_fallback_cex :
    braceBalanced "\x7b\x7d ".toList = true ∧
    (loads "\x7b\"a\":1\x7d".toList).isSome = true ∧
    extract_json ("\x7b\x7d ".toList ++ "\x7b\"a\":1\x7d".toList ++ ([] : Str)) =
      Except.error AgentErr.decodeErr :=
  ⟨rfl, rfl, rfl⟩

/-- C3 (amended): for a text prefix ++ "\x7b" ++ body ++ "\x7d" ++ suffix whose
embedded braces form valid JSON, whose prefix contains no opening brace and
whose suffix contains no closing brace, and on which the strict parse fails,
the fallback parses the substring from the first brace to the last brace
inclusive and recovers the embedded object. -/
theorem bracket_fallback_recovers (pre body suf : Str) (v : Json)
    (hpre : ∀ x ∈ pre, x ≠ '\x7b') (hsuf : ∀ x ∈ suf, x ≠ '\x7d')
    (hemb : loads ('\x7b' :: body ++ ['\x7d']) = some v)
    (hfull : loads (pre ++ ('\x7b' :: body ++ ['\x7d']) ++ suf) = none) :
    extract_json (pre ++ ('\x7b' :: body ++ ['\x7d']) ++ suf) = Except.ok v := by
  have hassoc1 : pre ++ ('\x7b' :: body ++ ['\x7d']) ++ suf =
      pre ++ '\x7b' :: (body ++ '\x7d' :: suf) := by simp
  have hassoc2 : pre ++ ('\x7b' :: body ++ ['\x7d']) ++ suf =
      (pre ++ '\x7b' :: body) ++ '\x7d' :: suf := by simp
  have hfind : pyFind (pre ++ ('\x7b' :: body ++ ['\x7d']) ++ suf) '\x7b' = some pre.length := by
    rw [hassoc1]
    exact pyFind_append_cons pre _ _ hpre
  have hrfind : pyRFind (pre ++ ('\x7b' :: body ++ ['\x7d']) ++ suf) '\x7d' =
      some (pre.length + body.length + 1) := by
    rw [hassoc2, pyRFind_append_cons _ _ _ hsuf]
    congr 1
    simp only [List.length_append]
    simp only [List.length_cons]
    omega
  have hdrop : (pre ++ ('\x7b' :: body ++ ['\x7d']) ++ suf).drop pre.length =
      ('\x7b' :: body ++ ['\x7d']) ++ suf := by
    rw [List.append_assoc]
    exact List.drop_left pre _
  have harg : pre.length + body.length + 1 + 1 - pre.length =
      ('\x7b' :: body ++ ['\x7d']).length := by
    simp only [List.length_append]
    simp only [List.length_cons, List.length_nil]
    omega
  have hlt : List.length pre < List.length pre + List.length body + 1 := by omega
  unfold extract_json
  rw [hfull, hfind, hrfind]
  dsimp only
  rw [if_pos hlt, harg, hdrop, List.take_left, hemb]

/-- Witness for the amended C3 on a concrete wrapped object. -/
theorem bracket_fallback_recovers_witness :
    loads ('\x7b' :: "\"a\":1".toList ++ ['\x7d']) =
      some (Json.obj [("a".toList, Json.num ['1'])]) ∧
    extract_json (" ".toList ++ ('\x7b' :: "\"a\":1".toList ++ ['\x7d']) ++ "]".toList) =
      Except.ok (Json.obj [("a".toList, Json.num ['1'])]) :=
  ⟨rfl, bracket_fallback_recovers " ".toList "\"a\":1".toList "]".toList _
    (by decide) (by decide) rfl rfl⟩

/-- C4 (counterexample): on the text "\x7bx\x7d" both the strict parse and the
bracket-window parse fail, yet the extraction raises the uncaught JSON
decode error of json.loads(snippet), not the MalformedOutput ValueError
carrying the 400-character preview. -/
theorem malformed_error_cex :
    loads "\x7bx\x7d".toList = none ∧
    extract_json "\x7bx\x7d".toList = Except.error AgentErr.decodeErr ∧
    AgentErr.decodeErr ≠ AgentErr.malformed ("\x7bx\x7d".toList.take 400) :=
  ⟨rfl, rfl, by decide⟩

/-- C4 (amended): when the strict parse fails, ask_json raises the
MalformedOutput ValueError with a 400-character preview exactly when the
bracket fallback window does not exist (no opening brace, no closing brace,
or the last closing brace not after the first opening brace); when the
window exists but its substring also fails to parse, the raw JSON decode
error propagates uncaught instead, without the preview. -/
theorem malformed_or_decode_error (t : Str) (h : loads t = none) :
    (fallback_window t = false →
      extract_json t = Except.error (AgentErr.malformed (t.take 400))) ∧
    (∀ s e, pyFind t '\x7b' = some s → pyRFind t '\x7d' = some e → s < e →
      loads ((t.drop s).take (e + 1 - s)) = none →
      extract_json t = Except.error AgentErr.decodeErr) := by
  constructor
  · intro hw
    unfold fallback_window at hw
    unfold extract_json
    rw [h]
    cases hf : pyFind t '\x7b' with
    | none => rfl
    | some s =>
      cases hr : pyRFind t '\x7d' with
      | none => rfl
      | some e =>
        rw [hf, hr] at hw
        dsimp only at hw ⊢
        rw [if_neg (by simpa using hw)]
  · intro s e hs he hlt hsnip
    unfold extract_json
    rw [h, hs, he]
    dsimp only
    rw [if_pos hlt, hsnip]

/-- Witness for the amended C4: a brace-free text falls to MalformedOutput
with the preview; a text with a failing bracket window raises the decode
error. -/
theorem malformed_or_decode_error_witness :
    extract_json "abc".toList = Except.error (AgentErr.malformed ("abc".toList.take 400)) ∧
    extract_json "\x7by\x7d".toList = Except.error AgentErr.decodeErr :=
  ⟨(malformed_or_decode_error "abc".toList rfl).1 rfl,
    (malformed_or_decode_error "\x7by\x7d".toList rfl).2 0 2 rfl rfl (by omega) rfl⟩

/-! Lemmas about the retry loop of OpenAICompatibleClient.chat. -/

theorem backoffs_eq (k : Nat) : ∀ i, backoffs i k = (List.range k).map (fun j => 6 * (i + j + 1)) := by
  induction k with
  | zero => exact fun i => rfl
  | succ k ih =>
    intro i
    rw [List.range_succ_eq_map]
    rw [List.map_cons, List.map_map]
    show backoffs i (k + 1) = 6 * (i + 0 + 1) :: _
    rw [show backoffs i (k + 1) = 6 * (i + 1) :: backoffs (i + 1) k from rfl, ih (i + 1)]
    rw [show i + 0 + 1 = i + 1 from by omega]
    refine congrArg _ ?_
    refine List.map_congr_left ?_
    intro a _
    show 6 * (i + 1 + a + 1) = 6 * (i + (a + 1) + 1)
    omega

theorem chatRun_count (oracle : Nat → Attempt) :
    ∀ rem i sleeps last, (chatRun oracle rem i sleeps last).2.2 ≤ i + rem := by
  intro rem
  induction rem with
  | zero => intro i sleeps last; simp [chatRun]
  | succ rem ih =>
    intro i sleeps last
    simp only [chatRun]
    cases hA : attemptOutcome (oracle i) with
    | ok c => show i + 1 ≤ i + (rem + 1); omega
    | error e =>
      have := ih (i + 1) (sleeps ++ [6 * (i + 1)]) e
      show (chatRun oracle rem (i + 1) (sleeps ++ [6 * (i + 1)]) e).2.2 ≤ i + (rem + 1)
      omega

theorem chatRun_success (oracle : Nat → Attempt) :
    ∀ k rem i sleeps last, k < rem →
    (∀ j, j < k → (attemptOutcome (oracle (i + j))).isOk = false) →
    ∀ c, attemptOutcome (oracle (i + k)) = Except.ok c →
    chatRun oracle rem i sleeps last = (Except.ok c, sleeps ++ backoffs i k, i + k + 1) := by
  intro k
  induction k generalizing oracle with
  | zero =>
    intro rem i sleeps last hrem hfail c hok
    cases rem with
    | zero => omega
    | succ rem =>
      simp only [Nat.add_zero] at hok
      simp only [chatRun, hok]
      simp [backoffs]
  | succ k ih =>
    intro rem i sleeps last hrem hfail c hok
    cases rem with
    | zero => omega
    | succ rem =>
      have h0 : (attemptOutcome (oracle (i + 0))).isOk = false := hfail 0 (by omega)
      simp only [Nat.add_zero] at h0
      cases hA : attemptOutcome (oracle i) with
      | ok c0 => rw [hA] at h0; exact Bool.noConfusion (show true = false from h0)
      | error e =>
        simp only [chatRun, hA]
        have hstep := ih oracle rem (i + 1) (sleeps ++ [6 * (i + 1)]) e (by omega)
          (fun j hj => by
            have hs := hfail (j + 1) (by omega)
            rw [show i + (j + 1) = i + 1 + j from by omega] at hs
            exact hs)
          c (by rw [show i + 1 + k = i + (k + 1) from by omega]; exact hok)
        rw [hstep, List.append_assoc]
        rw [show i + 1 + k + 1 = i + (k + 1) + 1 from by omega]
        rfl

theorem chatRun_allfail (oracle : Nat → Attempt) :
    ∀ rem i sleeps last, 0 < rem →
    (∀ j, j < rem → (attemptOutcome (oracle (i + j))).isOk = false) →
    chatRun oracle rem i sleeps last =
      (Except.error (failErr (oracle (i + rem - 1))), sleeps ++ backoffs i rem, i + rem) := by
  intro rem
  induction rem with
  | zero => intro i sleeps last h; omega
  | succ rem ih =>
    intro i sleeps last hpos hfail
    have h0 : (attemptOutcome (oracle (i + 0))).isOk = false := hfail 0 (by omega)
    simp only [Nat.add_zero] at h0
    cases hA : attemptOutcome (oracle i) with
    | ok c0 => rw [hA] at h0; exact Bool.noConfusion (show true = false from h0)
    | error e =>
      simp only [chatRun, hA]
      cases rem with
      | zero =>
        simp only [chatRun]
        have hfe : failErr (oracle i) = e := by unfold failErr; rw [hA]
        rw [show i + 1 - 1 = i from by omega, hfe]
        rfl
      | succ rem2 =>
        rw [ih (i + 1) (sleeps ++ [6 * (i + 1)]) e (by omega)
          (fun j hj => by
            have hs := hfail (j + 1) (by omega)
            rw [show i + (j + 1) = i + 1 + j from by omega] at hs
            exact hs)]
        rw [List.append_assoc]
        rw [show i + 1 + (rem2 + 1) - 1 = i + (rem2 + 1 + 1) - 1 from by omega]
        rw [show i + 1 + (rem2 + 1) = i + (rem2 + 1 + 1) from by omega]
        rfl

/-- C5: for every conversation, chat makes at most max_retries + 1 attempts;
any transport exception or HTTP status ≥ 400 is a failed attempt; a
linearly increasing backoff (0.6·(attempt+1) seconds, in tenths) is slept
after each failed attempt; the first successful response returns
choices[0].message.content with no further attempts; exhausting all
attempts fails with an LLMError carrying the last error. -/
theorem chat_retry_model (mr : Nat) (oracle : Nat → Attempt) :
    (chat_model mr oracle).2.2 ≤ mr + 1 ∧
    (∀ m, attemptOutcome (Attempt.exn m) = Except.error (ChatErr.exnError m)) ∧
    (∀ s b cont, 400 ≤ s →
      attemptOutcome (Attempt.http ⟨s, b, cont⟩) =
        Except.error (ChatErr.httpError s (b.take 500))) ∧
    (∀ k, k ≤ mr → (∀ j, j < k → (attemptOutcome (oracle j)).isOk = false) →
      ∀ c, attemptOutcome (oracle k) = Except.ok c →
      chat_model mr oracle =
        (Except.ok c, (List.range k).map (fun j => 6 * (j + 1)), k + 1)) ∧
    ((∀ j, j ≤ mr → (attemptOutcome (oracle j)).isOk = false) →
      chat_model mr oracle =
        (Except.error (failErr (oracle mr)),
          (List.range (mr + 1)).map (fun j => 6 * (j + 1)), mr + 1)) := by
  refine ⟨?_, fun m => rfl, ?_, ?_, ?_⟩
  · have hcount := chatRun_count oracle (mr + 1) 0 [] (ChatErr.exnError [])
    simpa [chat_model] using hcount
  · intro s b cont h
    unfold attemptOutcome
    dsimp only
    rw [if_pos h]
  · intro k hk hfail c hok
    have := chatRun_success oracle k (mr + 1) 0 [] (ChatErr.exnError []) (by omega)
      (fun j hj => by simpa using hfail j hj) c (by simpa using hok)
    unfold chat_model
    rw [this, backoffs_eq]
    simp only [List.nil_append, Nat.zero_add]
  · intro hfail
    have := chatRun_allfail oracle (mr + 1) 0 [] (ChatErr.exnError []) (by omega)
      (fun j hj => by simpa using hfail j (by omega))
    unfold chat_model
    rw [this, backoffs_eq]
    simp only [List.nil_append, Nat.zero_add]
    rw [show mr + 1 - 1 = mr from by omega]

/-- Witness for C5: max_retries = 1 against an always-down endpoint gives
two attempts, sleeps of 0.6 s and 1.2 s, and the last error surfaced. -/
theorem chat_retry_model_witness :
    chat_model 1 oracleW = (Except.error (ChatErr.exnError "conn".toList), [6, 12], 2) :=
  (chat_retry_model 1 oracleW).2.2.2.2 (fun _ _ => rfl)

/-- C6 (counterexample): the entry "../../etc/passwd" resolves outside the
project root, yet save_files writes it at os.path.join(root, rel) and
reports it as written — no rejection happens. -/
theorem path_escape_written_cex :
    path_inside rootW escRel = false ∧
    (save_files [(escRel, "x".toList)] rootW fs0).1 = [escRel] ∧
    assocLookup (save_files [(escRel, "x".toList)] rootW fs0).2.files (osJoin rootW escRel) =
      some "x".toList :=
  ⟨rfl, rfl, rfl⟩

/-- C6 (amended): save_files performs no path-containment check: every
entry, whether or not its joined path resolves inside the project root, is
written at os.path.join(root_dir, rel_path) and reported in the returned
written list. -/
theorem save_files_no_containment (files : List (Str × Str)) (root : Str) (fs : FS) :
    (save_files files root fs).1 = files.map (fun pr => pr.1) ∧
    ∀ pr ∈ files,
      (assocLookup (save_files files root fs).2.files (osJoin root pr.1)).isSome = true :=
  ⟨save_files_written files root fs, save_files_key_isSome files root fs⟩

/-- Witness for the amended C6 on a concrete entry. -/
theorem save_files_no_containment_witness :
    (save_files [("a/b".toList, "y".toList)] rootW fs0).1 = ["a/b".toList] ∧
    (assocLookup (save_files [("a/b".toList, "y".toList)] rootW fs0).2.files
      (osJoin rootW "a/b".toList)).isSome = true :=
  ⟨(save_files_no_containment [("a/b".toList, "y".toList)] rootW fs0).1,
    (save_files_no_containment [("a/b".toList, "y".toList)] rootW fs0).2
      ("a/b".toList, "y".toList) (List.mem_singleton.mpr rfl)⟩

/-- C7: if the test stage fails after the code stage's files have been
persisted, Orchestrator.run propagates the error while the filesystem keeps
exactly the state left by the code-stage save: every written code file
remains with its written content — there is no rollback. -/
theorem no_rollback (ra ca ta : Agent) (chR chC chT : ChatFn) (root story : Str) (fs : FS)
    (spec : Json) (cf : List (Str × Str)) (err : AgentErr)
    (h1 : generate_spec ra chR story = Except.ok spec)
    (h2 : generate_code_files ca chC spec = Except.ok cf)
    (h3 : generate_tests ta chT spec cf = Except.error err)
    (hnd : (cf.map (fun pr => osJoin root pr.1)).Nodup) :
    orchestrator_run ra ca ta chR chC chT root story fs =
      (Except.error err, (save_files cf root fs).2) ∧
    ∀ pr ∈ cf,
      assocLookup (save_files cf root fs).2.files (osJoin root pr.1) = some pr.2 := by
  have hrun : orchestrator_run ra ca ta chR chC chT root story fs =
      (Except.error err, (save_files cf root fs).2) := by
    unfold orchestrator_run
    rw [h1]
    dsimp only
    rw [h2]
    dsimp only
    rw [h3]
  exact ⟨hrun, save_files_lookup cf root fs hnd⟩

/-- Witness for C7: mock requirements and code stages, then a test-stage
completion with no JSON; the run fails with the MalformedOutput preview and
the filesystem keeps the code-stage writes. -/
theorem no_rollback_witness :
    orchestrator_run agentW agentW agentW failing_chat failing_chat chatBadTest rootW storyW fs0 =
      (Except.error (AgentErr.malformed ("no json here".toList)),
        (save_files cfW rootW fs0).2) :=
  (no_rollback agentW agentW agentW failing_chat failing_chat chatBadTest rootW storyW fs0
    specW cfW (AgentErr.malformed ("no json here".toList)) rfl rfl rfl (by decide)).1

/-- C8: on a successful run, Orchestrator.run returns the specification and
the two lists of relative paths written, each in the insertion order of the
corresponding stage's mapping; every mapped path is created or overwritten
under the project root with exactly the mapped content (a test-stage write
to the same joined path landing last), and the parent directory of every
written file has been created. -/
theorem run_success_persists (ra ca ta : Agent) (chR chC chT : ChatFn) (root story : Str)
    (fs : FS) (spec : Json) (cf tf : List (Str × Str))
    (h1 : generate_spec ra chR story = Except.ok spec)
    (h2 : generate_code_files ca chC spec = Except.ok cf)
    (h3 : generate_tests ta chT spec cf = Except.ok tf)
    (hndC : (cf.map (fun pr => osJoin root pr.1)).Nodup)
    (hndT : (tf.map (fun pr => osJoin root pr.1)).Nodup) :
    orchestrator_run ra ca ta chR chC chT root story fs =
      (Except.ok ⟨spec, cf.map (fun pr => pr.1), tf.map (fun pr => pr.1)⟩,
        (save_files tf root (save_files cf root fs).2).2) ∧
    (∀ pr ∈ cf,
      assocLookup (save_files cf root fs).2.files (osJoin root pr.1) = some pr.2) ∧
    (∀ pr ∈ tf,
      assocLookup (save_files tf root (save_files cf root fs).2).2.files
        (osJoin root pr.1) = some pr.2) ∧
    (∀ pr ∈ cf, osJoin root pr.1 ∉ tf.map (fun q => osJoin root q.1) →
      assocLookup (save_files tf root (save_files cf root fs).2).2.files
        (osJoin root pr.1) = some pr.2) ∧
    (∀ pr ∈ cf, pyDirname (osJoin root pr.1) ∈
      (save_files tf root (save_files cf root fs).2).2.dirs) ∧
    (∀ pr ∈ tf, pyDirname (osJoin root pr.1) ∈
      (save_files tf root (save_files cf root fs).2).2.dirs) := by
  refine ⟨?_, save_files_lookup cf root fs hndC, save_files_lookup tf root _ hndT,
    ?_, ?_, save_files_dirname_mem tf root _⟩
  · unfold orchestrator_run
    rw [h1]
    dsimp only
    rw [h2]
    dsimp only
    rw [h3]
    dsimp only
    rw [save_files_written, save_files_written]
  · intro pr hpr hnot
    rw [save_files_lookup_other tf root _ _
      (fun q hq hcon =>
        hnot (by rw [← hcon]; exact List.mem_map_of_mem (fun q => osJoin root q.1) hq))]
    exact save_files_lookup cf root fs hndC pr hpr
  · intro pr hpr
    exact save_files_dirs_mono tf root _ _ (save_files_dirname_mem cf root fs pr hpr)

/-- Witness for C8: the full offline mock run writes the four code files and
the test file and returns their paths in order. -/
theorem run_success_persists_witness :
    orchestrator_run agentW agentW agentW failing_chat failing_chat failing_chat rootW storyW fs0 =
      (Except.ok ⟨specW, cfW.map (fun pr => pr.1), tfW.map (fun pr => pr.1)⟩,
        (save_files tfW rootW (save_files cfW rootW fs0).2).2) :=
  (run_success_persists agentW agentW agentW failing_chat failing_chat failing_chat rootW
    storyW fs0 specW cfW tfW rfl rfl rfl (by decide) (by decide)).1

/-- C9 (counterexample): two generated-file dicts that agree on each of the
three key files as mappings, but list them in different insertion orders,
produce different test prompts, and a chat client distinguishing the
prompts produces different stage results. -/
theorem test_stage_order_cex :
    (key_file_names.all (fun k => assocLookup gfA k == assocLookup gfB k)) = true ∧
    test_prompt specEmpty gfA ≠ test_prompt specEmpty gfB ∧
    generate_tests agentW chatDistinguish specEmpty gfA ≠
      generate_tests agentW chatDistinguish specEmpty gfB :=
  ⟨rfl, by decide, by intro h; exact absurd (congrArg okFiles h) (by decide)⟩

/-- C9 (amended): the test stage depends on the code stage's output only
through the filtered key-file subsequence (the entries with keys
app/main.py, app/routes.py, app/models.py, in insertion order): two
mappings with equal filtered subsequences yield the same prompt and, under
the same chat-client behavior, the same result. -/
theorem key_files_determine_test_stage (spec : Json) (gf1 gf2 : List (Str × Str))
    (ta : Agent) (ch : ChatFn) (h : key_files gf1 = key_files gf2) :
    test_prompt spec gf1 = test_prompt spec gf2 ∧
    generate_tests ta ch spec gf1 = generate_tests ta ch spec gf2 := by
  have hp : test_prompt spec gf1 = test_prompt spec gf2 := by
    unfold test_prompt
    rw [h]
  refine ⟨hp, ?_⟩
  unfold generate_tests
  rw [hp]

/-- Witness for the amended C9 on two concretely different dicts with the
same key-file restriction. -/
theorem key_files_determine_test_stage_witness :
    key_files gfW1 = key_files gfW2 ∧
    test_prompt specEmpty gfW1 = test_prompt specEmpty gfW2 :=
  ⟨rfl, (key_files_determine_test_stage specEmpty gfW1 gfW2 agentW failing_chat rfl).1⟩

end Agentic
